import Mathlib

/-!
Shallow embedding of the neomedi scheduling core
(appointment/facility conflict detection, availability resolution,
slot generation, recurring-reservation expansion and the appointment
status machine), translated from
`src/neomediapi/services/appointment_service.py`,
`src/neomediapi/services/recurring_reservation_service.py`,
`src/neomediapi/infra/db/repositories/appointment_repository.py` and
`src/neomediapi/infra/db/repositories/facility_repository.py`.

Conventions of the embedding:
* instants (Python `datetime`) are absolute minutes as `Nat`;
* calendar dates (Python `date`) are day numbers as `Nat`, counted from a
  Monday epoch, so `date.weekday()` becomes `d % 7` (0 = Monday .. 6 = Sunday);
* `datetime.combine(d, t)` becomes `d * 1440 + t` and `.time()` becomes
  `% 1440` (this keeps the wrap-around behaviour of `.time()` on a
  `datetime` that crosses midnight);
* times of day (Python `time`, and the `HH:MM` strings of
  `RecurringReservation`) are minutes after midnight as `Nat`;
* a SQLAlchemy table is a `List` of records and `.filter(...).first()`
  becomes `List.find?`, `.filter(...).all()` becomes `List.filter`;
* Python `raise` becomes an `Except SchedErr` value; a service method that
  mutates the session is modelled as returning the new table together with
  the `Except` result, returning the untouched table when it raises before
  any mutation;
* Python truthiness tests on optional integers (`if exclude_appointment_id:`,
  `if current_user.company_id:`) are `truthyNat`: both `None` and `0` are
  falsy; optional dates and datetimes are truthy exactly when present.
-/

/-- The exception classes raised by the modelled code paths
(`neomediapi.domain.appointment.exceptions`, plus `ValueError` from the
recurring-reservation service and the `AttributeError` produced by the
reference to the nonexistent `UserProfile.PATIENT` member). -/
inductive SchedErr where
  | notFound
  | timeConflict
  | invalidStatusTransition
  | outsideAvailability
  | invalidDuration
  | pastDate
  | invalidTime
  | noAvailableSlots
  | valueError
  | attributeError
deriving DecidableEq, Repr

/-- `neomediapi.enums.appointment_status.AppointmentStatus`. -/
inductive AppointmentStatus where
  | scheduled
  | confirmed
  | in_progress
  | completed
  | cancelled
  | no_show
  | rescheduled
  | pending
  | waiting
  | finished
deriving DecidableEq, Repr, Fintype

deriving instance DecidableEq for Except

/-- `neomediapi.enums.user_profiles.UserProfile` (note: there is no
PATIENT member). -/
inductive UserProfile where
  | super
  | admin
  | manager
  | assistant
  | professional
  | client
  | tutor
deriving DecidableEq, Repr

/-- The fields of `infra.db.models.appointment_model.Appointment` that the
verified code paths read or write.  `patient_id` is optional because the
appointments materialised by the recurring-reservation expansion are
constructed without one.  Column defaults: `is_active=True`,
`is_deleted=False`, `status=SCHEDULED`. -/
structure Appointment where
  id : Nat
  appointment_date : Nat
  duration_minutes : Nat
  status : AppointmentStatus
  patient_id : Option Nat
  professional_id : Nat
  facility_id : Option Nat
  company_id : Option Nat
  is_active : Bool
  is_deleted : Bool
deriving DecidableEq, Repr

/-- Python truthiness of an optional integer: `None` and `0` are falsy. -/
def truthyNat (o : Option Nat) : Bool := o.getD 0 != 0

/-- The three-branch interval test shared verbatim by
`AppointmentRepository.get_conflicts` and
`FacilityScheduleRepository.get_facility_conflicts`:
starts-during OR ends-during OR contains, for the candidate
`[aStart, aEnd)` against an existing booking `[bStart, bEnd)`. -/
def overlapsBranches (aStart aEnd bStart bEnd : Nat) : Bool :=
  (decide (bStart ≤ aStart) && decide (aStart < bEnd))
    || (decide (bStart < aEnd) && decide (aEnd ≤ bEnd))
    || (decide (aStart ≤ bStart) && decide (bEnd ≤ aEnd))

/-- The single half-open overlap predicate of the spec (section 4.3):
conflict iff `aStart < bEnd AND bStart < aEnd`.  Written from the spec, to
be compared with `overlapsBranches` which is written from the source. -/
def overlapHalfOpen (aStart aEnd bStart bEnd : Nat) : Bool :=
  decide (aStart < bEnd) && decide (bStart < aEnd)

/-- `AppointmentRepository.get_conflicts`: all non-deleted, active
appointments of the professional whose interval passes the three-branch
test, minus the excluded id when `exclude_appointment_id` is truthy. -/
def get_conflicts (db : List Appointment) (professional_id : Nat)
    (appointment_date duration_minutes : Nat)
    (exclude_appointment_id : Option Nat) : List Appointment :=
  let end_time := appointment_date + duration_minutes
  let base := db.filter fun a =>
    decide (a.professional_id = professional_id)
      && !a.is_deleted && a.is_active
      && overlapsBranches appointment_date end_time
          a.appointment_date (a.appointment_date + a.duration_minutes)
  if truthyNat exclude_appointment_id then
    base.filter fun a => decide (a.id ≠ exclude_appointment_id.getD 0)
  else base

/-- `FacilityScheduleRepository.get_facility_conflicts`: identical to
`get_conflicts` except that it matches on `facility_id`. -/
def get_facility_conflicts (db : List Appointment) (facility_id : Nat)
    (appointment_date duration_minutes : Nat)
    (exclude_appointment_id : Option Nat) : List Appointment :=
  let end_time := appointment_date + duration_minutes
  let base := db.filter fun a =>
    decide (a.facility_id = some facility_id)
      && !a.is_deleted && a.is_active
      && overlapsBranches appointment_date end_time
          a.appointment_date (a.appointment_date + a.duration_minutes)
  if truthyNat exclude_appointment_id then
    base.filter fun a => decide (a.id ≠ exclude_appointment_id.getD 0)
  else base

/-- The slot-generation while loop of
`ProfessionalAvailabilityRepository.get_available_slots` (and of
`FacilityScheduleRepository.get_available_slots`, which is identical):
starting at `current_time`, emit `(t, t + duration)` and advance while
`t + duration <= end_datetime`.  The loop runs at most
`end_datetime + 1 - current_time` times when `duration > 0` (with
`duration = 0` the Python loop does not terminate), so it is given that
much fuel; every claim about it assumes a positive duration. -/
def slotLoopFuel : Nat → Nat → Nat → Nat → List (Nat × Nat)
  | 0, _, _, _ => []
  | fuel + 1, current_time, end_datetime, duration_minutes =>
    if current_time + duration_minutes ≤ end_datetime then
      (current_time, current_time + duration_minutes)
        :: slotLoopFuel fuel (current_time + duration_minutes)
            end_datetime duration_minutes
    else []

/-- The slot-generation loop with its fuel instantiated. -/
def slotLoop (current_time end_datetime duration_minutes : Nat) :
    List (Nat × Nat) :=
  slotLoopFuel (end_datetime + 1 - current_time)
    current_time end_datetime duration_minutes

/-- The fields of
`infra.db.models.professional_availability_model.ProfessionalAvailability`
read by the verified paths.  One table stores both weekly records
(`exception_date = none`) and exception records (`exception_date` set). -/
structure ProfessionalAvailability where
  id : Nat
  professional_id : Nat
  day_of_week : Nat
  start_time : Nat
  end_time : Nat
  is_available : Bool
  exception_date : Option Nat
  exception_start_time : Option Nat
  exception_end_time : Option Nat
  is_active : Bool
  is_deleted : Bool
deriving DecidableEq, Repr

/-- Python `date.weekday()` under the Monday-epoch day numbering:
0 = Monday .. 6 = Sunday. -/
def weekday (d : Nat) : Nat := d % 7

/-- `ProfessionalAvailabilityRepository.get_by_professional_and_day`:
first non-deleted record of the professional for that weekday. -/
def get_by_professional_and_day (db : List ProfessionalAvailability)
    (professional_id day_of_week : Nat) : Option ProfessionalAvailability :=
  db.find? fun a =>
    decide (a.professional_id = professional_id)
      && decide (a.day_of_week = day_of_week) && !a.is_deleted

/-- The exception query inlined in both
`ProfessionalAvailabilityRepository.get_available_slots` and
`AppointmentService._validate_professional_availability`:
first non-deleted record of the professional with
`exception_date == target_date`. -/
def findExceptionRecord (db : List ProfessionalAvailability)
    (professional_id target_date : Nat) : Option ProfessionalAvailability :=
  db.find? fun a =>
    decide (a.professional_id = professional_id)
      && decide (a.exception_date = some target_date) && !a.is_deleted

/-- The availability-resolution logic shared verbatim by
`get_available_slots` and `_validate_professional_availability`:
weekly record absent or unavailable, or exception present and
unavailable, resolves to no window; an available exception overrides
each weekly bound it sets (Python `or` fallback, `None` falsy);
otherwise the weekly window is used.  Returns the effective
`(start_time, end_time)` window, or `none` for the unavailable outcomes
(`return []` respectively `raise AppointmentOutsideAvailabilityError`
at the call sites). -/
def resolveWindow (db : List ProfessionalAvailability)
    (professional_id target_date : Nat) : Option (Nat × Nat) :=
  match get_by_professional_and_day db professional_id (weekday target_date) with
  | none => none
  | some availability =>
    if availability.is_available = false then none
    else
      match findExceptionRecord db professional_id target_date with
      | none => some (availability.start_time, availability.end_time)
      | some exc =>
        if exc.is_available = false then none
        else
          some (exc.exception_start_time.getD availability.start_time,
                exc.exception_end_time.getD availability.end_time)

/-- `ProfessionalAvailabilityRepository.get_available_slots`: resolve the
window for the date, then run the slot loop from
`combine(target_date, start_time)` to `combine(target_date, end_time)`. -/
def get_available_slots (db : List ProfessionalAvailability)
    (professional_id target_date duration_minutes : Nat) :
    List (Nat × Nat) :=
  match resolveWindow db professional_id target_date with
  | none => []
  | some (start_time, end_time) =>
    slotLoop (target_date * 1440 + start_time)
      (target_date * 1440 + end_time) duration_minutes

/-- `AppointmentService._validate_professional_availability`: resolve the
window (raising `AppointmentOutsideAvailabilityError` on the unavailable
outcomes), then require `start_time <= appointment_date.time()` and
`(appointment_date + duration).time() <= end_time`; both `.time()` calls
wrap modulo one day. -/
def validate_professional_availability
    (db : List ProfessionalAvailability) (professional_id : Nat)
    (appointment_date duration_minutes : Nat) : Except SchedErr Unit :=
  let target_date := appointment_date / 1440
  match resolveWindow db professional_id target_date with
  | none => .error .outsideAvailability
  | some (start_time, end_time) =>
    let appointment_time := appointment_date % 1440
    let end_appointment_time := (appointment_date + duration_minutes) % 1440
    if appointment_time < start_time ∨ end_time < end_appointment_time then
      .error .outsideAvailability
    else .ok ()

/-- The `valid_transitions` dictionary of
`AppointmentService._validate_status_transition`; `PENDING` and
`FINISHED` have no entry, so `dict.get(current, [])` yields `[]`. -/
def valid_transitions : AppointmentStatus → List AppointmentStatus
  | .scheduled => [.confirmed, .cancelled, .rescheduled]
  | .confirmed => [.in_progress, .waiting, .cancelled]
  | .in_progress => [.completed, .finished]
  | .waiting => [.in_progress, .cancelled, .no_show]
  | .completed => [.finished]
  | .cancelled => [.scheduled]
  | .no_show => [.scheduled]
  | .rescheduled => [.confirmed, .cancelled]
  | .pending => []
  | .finished => []

/-- `AppointmentService._validate_status_transition`: raise
`AppointmentInvalidStatusTransitionError` unless the new status is listed
for the current one. -/
def validate_status_transition (current_status new_status : AppointmentStatus) :
    Except SchedErr Unit :=
  if new_status ∈ valid_transitions current_status then .ok ()
  else .error .invalidStatusTransition

/-- The adjacency table of the spec (section 4.5, booking status machine),
written from the spec for comparison with `validate_status_transition`. -/
def specBookingEdges : List (AppointmentStatus × AppointmentStatus) :=
  [(.scheduled, .confirmed), (.scheduled, .cancelled), (.scheduled, .rescheduled),
   (.confirmed, .in_progress), (.confirmed, .waiting), (.confirmed, .cancelled),
   (.waiting, .in_progress), (.waiting, .cancelled), (.waiting, .no_show),
   (.in_progress, .completed), (.in_progress, .finished),
   (.completed, .finished),
   (.cancelled, .scheduled),
   (.no_show, .scheduled),
   (.rescheduled, .confirmed), (.rescheduled, .cancelled)]

/-- The fields of `infra.db.models.user_model.User` read by the
permission checks. -/
structure User where
  id : Nat
  company_id : Option Nat
deriving DecidableEq, Repr

/-- `neomediapi.auth.authenticated_user.AuthenticatedUser` as read by the
appointment service. -/
structure AuthenticatedUser where
  user_id : Nat
  profile : UserProfile
  company_id : Option Nat
deriving DecidableEq, Repr

/-- `UserRepository.get_by_id`: first non-deleted user with the id (the
model rows here are never deleted, so the table holds live users). -/
def user_get_by_id (users : List User) (user_id : Nat) : Option User :=
  users.find? fun u => decide (u.id = user_id)

/-- The manager branch of `_validate_appointment_permissions`:
`current_user.company_id` truthy and the professional exists with the
same company. -/
def managerCompanyMatch (users : List User) (current_user : AuthenticatedUser)
    (professional_id : Nat) : Bool :=
  truthyNat current_user.company_id
    && (match user_get_by_id users professional_id with
        | some p => decide (p.company_id = current_user.company_id)
        | none => false)

/-- `AppointmentService._validate_appointment_permissions`.  Admins pass;
managers pass on a company match; professionals pass for their own
appointments or ones where they are the patient.  Any caller reaching the
final branch hits the comparison with the nonexistent
`UserProfile.PATIENT` member, which raises `AttributeError` (the
`AppointmentPermissionError` line below it is unreachable).
First, the patient subcheck of the professional branch:
`appointment and appointment.patient_id == current_user.user_id`. -/
def apptPatientMatch (appointment : Option Appointment)
    (current_user : AuthenticatedUser) : Bool :=
  match appointment with
  | some a => decide (a.patient_id = some current_user.user_id)
  | none => false

/-- The permission check itself; see `apptPatientMatch` above. -/
def validate_appointment_permissions (users : List User)
    (current_user : AuthenticatedUser) (professional_id : Nat)
    (appointment : Option Appointment) : Except SchedErr Unit :=
  if current_user.profile = .admin then .ok ()
  else if current_user.profile = .manager
      ∧ managerCompanyMatch users current_user professional_id = true then .ok ()
  else if current_user.profile = .professional
      ∧ (current_user.user_id = professional_id
          ∨ apptPatientMatch appointment current_user = true) then .ok ()
  else .error .attributeError

/-- `AppointmentRepository.get_by_id`: first appointment with the id and
`is_deleted == False`. -/
def appointment_get_by_id (db : List Appointment) (appointment_id : Nat) :
    Option Appointment :=
  db.find? fun a => decide (a.id = appointment_id) && !a.is_deleted

/-- Committing a mutation of the record that `appointment_get_by_id`
located: replace the first non-deleted appointment with that id. -/
def replaceFirst (db : List Appointment) (appointment_id : Nat)
    (updated : Appointment) : List Appointment :=
  match db with
  | [] => []
  | a :: rest =>
    if a.id = appointment_id ∧ a.is_deleted = false then updated :: rest
    else a :: replaceFirst rest appointment_id updated

/-- `AppointmentService.update_appointment_status`: look up the
appointment, validate permissions, validate the status transition, and
only then assign the new status and commit.  Returns the table as it
stands when the method returns or raises. -/
def update_appointment_status (db : List Appointment) (users : List User)
    (appointment_id : Nat) (new_status : AppointmentStatus)
    (current_user : AuthenticatedUser) :
    List Appointment × Except SchedErr Appointment :=
  match appointment_get_by_id db appointment_id with
  | none => (db, .error .notFound)
  | some appointment =>
    match validate_appointment_permissions users current_user
        appointment.professional_id (some appointment) with
    | .error e => (db, .error e)
    | .ok _ =>
      match validate_status_transition appointment.status new_status with
      | .error e => (db, .error e)
      | .ok _ =>
        let updated := { appointment with status := new_status }
        (replaceFirst db appointment_id updated, .ok updated)

/-- The fields of `AppointmentUpdateDTO` that touch the modelled
`Appointment` fields (the remaining DTO fields are free-text metadata
and `appointment_type`, which no verified path reads). -/
structure AppointmentUpdateDTO where
  appointment_date : Option Nat
  duration_minutes : Option Nat
  status : Option AppointmentStatus
deriving DecidableEq, Repr

/-- `AppointmentMapper.update_entity_from_dto` restricted to the modelled
fields: each field is overwritten exactly when the DTO supplies it. -/
def update_entity_from_dto (a : Appointment) (dto : AppointmentUpdateDTO) :
    Appointment :=
  { a with
    appointment_date := dto.appointment_date.getD a.appointment_date
    duration_minutes := dto.duration_minutes.getD a.duration_minutes
    status := dto.status.getD a.status }

/-- The status subcheck of `AppointmentService.update_appointment`:
`if update_dto.status and update_dto.status != appointment.status:
 self._validate_status_transition(...)`. -/
def updateStatusCheck (appointment : Appointment)
    (dto : AppointmentUpdateDTO) : Except SchedErr Unit :=
  match dto.status with
  | some new_status =>
    if new_status ≠ appointment.status then
      validate_status_transition appointment.status new_status
    else .ok ()
  | none => .ok ()

/-- The final segment of `update_appointment`: apply the mapper and
commit the updated record. -/
def commitUpdate (db : List Appointment) (appointment_id : Nat)
    (appointment : Appointment) (dto : AppointmentUpdateDTO) :
    List Appointment × Except SchedErr Appointment :=
  let updated := update_entity_from_dto appointment dto
  (replaceFirst db appointment_id updated, .ok updated)

/-- `AppointmentService.update_appointment`: look up the appointment,
validate permissions, validate the status transition when a new status is
supplied, and only when a new `appointment_date` is supplied check the
past-date rule, conflicts (excluding the appointment itself, duration
falling back to the stored one via Python `or`) and professional
availability; finally apply the mapper and commit.  `now` stands for
`datetime.now()`. -/
def update_appointment (db : List Appointment) (users : List User)
    (availabilities : List ProfessionalAvailability) (now : Nat)
    (appointment_id : Nat) (dto : AppointmentUpdateDTO)
    (current_user : AuthenticatedUser) :
    List Appointment × Except SchedErr Appointment :=
  match appointment_get_by_id db appointment_id with
  | none => (db, .error .notFound)
  | some appointment =>
    match validate_appointment_permissions users current_user
        appointment.professional_id (some appointment) with
    | .error e => (db, .error e)
    | .ok _ =>
      match updateStatusCheck appointment dto with
      | .error e => (db, .error e)
      | .ok _ =>
        match dto.appointment_date with
        | none => commitUpdate db appointment_id appointment dto
        | some new_date =>
          if new_date ≤ now then (db, .error .pastDate)
          else
            let dur := dto.duration_minutes.getD appointment.duration_minutes
            if get_conflicts db appointment.professional_id new_date dur
                (some appointment_id) ≠ [] then
              (db, .error .timeConflict)
            else
              match validate_professional_availability availabilities
                  appointment.professional_id new_date dur with
              | .error e => (db, .error e)
              | .ok _ => commitUpdate db appointment_id appointment dto

/-- The fields of
`infra.db.models.recurring_reservation_model.RecurringReservation` read
by the generation path; `start_time` is the parsed `HH:MM` string as
minutes after midnight. -/
structure RecurringReservation where
  id : Nat
  day_of_week : Nat
  start_time : Nat
  end_time : Nat
  duration_minutes : Nat
  start_date : Nat
  end_date : Option Nat
  professional_id : Nat
  facility_id : Nat
  company_id : Option Nat
  is_active : Bool
  is_deleted : Bool
deriving DecidableEq, Repr

/-- `GeneratedAppointmentDTO` (title omitted: free text). -/
structure GeneratedAppointmentDTO where
  appointment_date : Nat
  professional_id : Nat
  facility_id : Nat
  duration_minutes : Nat
deriving DecidableEq, Repr

/-- `RecurringReservationGenerationDTO`. -/
structure RecurringReservationGenerationDTO where
  start_date : Nat
  end_date : Nat
  create_appointments : Bool
deriving DecidableEq, Repr

/-- `RecurringReservationGenerationResponseDTO`; a conflict note is
recorded as the candidate timestamp it formats. -/
structure RecurringReservationGenerationResponse where
  reservation_id : Nat
  generated_appointments : List GeneratedAppointmentDTO
  total_generated : Nat
  conflicts : List Nat
deriving DecidableEq, Repr

/-- The `Appointment(...)` constructed by
`generate_appointments_from_reservation` when `create_appointments` is
set: status SCHEDULED, column defaults `is_active=True`,
`is_deleted=False`, no patient, id unassigned before flush (no code path
in this flow reads it). -/
def mkGeneratedAppointment (reservation : RecurringReservation)
    (appointment_datetime : Nat) : Appointment :=
  { id := 0
    appointment_date := appointment_datetime
    duration_minutes := reservation.duration_minutes
    status := .scheduled
    patient_id := none
    professional_id := reservation.professional_id
    facility_id := some reservation.facility_id
    company_id := reservation.company_id
    is_active := true
    is_deleted := false }

/-- The accumulator of the generation loop: the appointment table (the
session, including rows added but not yet committed, which the conflict
queries see via autoflush) plus the two report lists. -/
structure GenLoopState where
  db : List Appointment
  generated : List GeneratedAppointmentDTO
  conflicts : List Nat
deriving DecidableEq, Repr

/-- One iteration of the generation loop of
`generate_appointments_from_reservation` for `current_date`: on a
weekday match, build the candidate datetime, query facility conflicts
(the surrounding `try` never fires in this pure model: the query is
total), and either record the generated appointment (adding the row when
`create_appointments`) or append a conflict note. -/
def generationStep (reservation : RecurringReservation)
    (create_appointments : Bool) (current_date : Nat)
    (st : GenLoopState) : GenLoopState :=
  if current_date % 7 = reservation.day_of_week then
    let appointment_datetime := current_date * 1440 + reservation.start_time
    let conflicts_check := get_facility_conflicts st.db reservation.facility_id
        appointment_datetime reservation.duration_minutes none
    if conflicts_check.isEmpty then
      { db := if create_appointments then
            st.db ++ [mkGeneratedAppointment reservation appointment_datetime]
          else st.db
        generated := st.generated
          ++ [{ appointment_date := appointment_datetime
                professional_id := reservation.professional_id
                facility_id := reservation.facility_id
                duration_minutes := reservation.duration_minutes }]
        conflicts := st.conflicts }
    else { st with conflicts := st.conflicts ++ [appointment_datetime] }
  else st

/-- The `while current_date <= generation_dto.end_date` loop, iterating
day by day; the first argument counts the remaining days
(`end_date + 1 - current_date` at entry). -/
def generateLoop (reservation : RecurringReservation)
    (create_appointments : Bool) :
    Nat → Nat → GenLoopState → GenLoopState
  | 0, _, st => st
  | n + 1, current_date, st =>
    generateLoop reservation create_appointments n (current_date + 1)
      (generationStep reservation create_appointments current_date st)

/-- `RecurringReservationService.generate_appointments_from_reservation`
after the reservation lookup and permission check (which precede it and
do not touch the tables): validate the generation range against the
reservation validity window (`ValueError` on failure, before any date is
visited), then run the loop and assemble the report.  Returns the
appointment table, untouched on rejection, together with the result. -/
def generate_appointments_from_reservation (db : List Appointment)
    (reservation : RecurringReservation)
    (generation_dto : RecurringReservationGenerationDTO) :
    List Appointment × Except SchedErr RecurringReservationGenerationResponse :=
  if generation_dto.start_date < reservation.start_date then
    (db, .error .valueError)
  else if (match reservation.end_date with
           | some e => decide (e < generation_dto.end_date)
           | none => false) then
    (db, .error .valueError)
  else
    let st := generateLoop reservation generation_dto.create_appointments
        (generation_dto.end_date + 1 - generation_dto.start_date)
        generation_dto.start_date ⟨db, [], []⟩
    (st.db, .ok
      { reservation_id := reservation.id
        generated_appointments := st.generated
        total_generated := st.generated.length
        conflicts := st.conflicts })

/-- The calendar dates of `[rangeStart, rangeEnd]` whose weekday matches
the template, in ascending order (the visiting order of the loop). -/
def candidateDates (day_of_week range_start range_end : Nat) : List Nat :=
  (List.range' range_start (range_end + 1 - range_start)).filter
    fun d => decide (d % 7 = day_of_week)

theorem bool_eq_of_iff {x y : Bool} (h : x = true ↔ y = true) : x = y := by
  revert h; revert y; revert x; decide

/-- For positive durations the three-branch disjunction of the source
equals the half-open overlap predicate of the spec. -/
theorem overlapsBranches_eq_halfOpen (aStart durA bStart durB : Nat)
    (hA : 0 < durA) (hB : 0 < durB) :
    overlapsBranches aStart (aStart + durA) bStart (bStart + durB)
      = overlapHalfOpen aStart (aStart + durA) bStart (bStart + durB) := by
  apply bool_eq_of_iff
  simp only [overlapsBranches, overlapHalfOpen, Bool.or_eq_true,
    Bool.and_eq_true, decide_eq_true_eq]
  omega

/-- Membership in `get_conflicts` without an exclusion id, unfolded. -/
theorem mem_get_conflicts_none (db : List Appointment) (pid t d : Nat)
    (b : Appointment) :
    b ∈ get_conflicts db pid t d none ↔
      b ∈ db ∧ b.professional_id = pid ∧ b.is_deleted = false
        ∧ b.is_active = true
        ∧ overlapsBranches t (t + d) b.appointment_date
            (b.appointment_date + b.duration_minutes) = true := by
  simp [get_conflicts, truthyNat, List.mem_filter, Bool.and_eq_true,
    decide_eq_true_eq, Bool.not_eq_true', and_assoc]

/-- Membership in `get_facility_conflicts` without an exclusion id. -/
theorem mem_get_facility_conflicts_none (db : List Appointment)
    (fid t d : Nat) (b : Appointment) :
    b ∈ get_facility_conflicts db fid t d none ↔
      b ∈ db ∧ b.facility_id = some fid ∧ b.is_deleted = false
        ∧ b.is_active = true
        ∧ overlapsBranches t (t + d) b.appointment_date
            (b.appointment_date + b.duration_minutes) = true := by
  simp [get_facility_conflicts, truthyNat, List.mem_filter, Bool.and_eq_true,
    decide_eq_true_eq, Bool.not_eq_true', and_assoc]

/-- C1: for every candidate interval `[aStart, aStart + durA)` and every
existing active, non-deleted booking of the same resource with a positive
duration, the conflict queries report a conflict iff
`aStart < bEnd AND bStart < aEnd`; the three-branch disjunction of the
source equals the single half-open overlap predicate, and intervals that
merely touch are never reported. -/
theorem c1_conflict_detector_half_open (aStart durA bStart durB : Nat)
    (hA : 0 < durA) (hB : 0 < durB) :
    (overlapsBranches aStart (aStart + durA) bStart (bStart + durB)
       = overlapHalfOpen aStart (aStart + durA) bStart (bStart + durB))
    ∧ (bStart + durB = aStart ∨ aStart + durA = bStart →
        overlapsBranches aStart (aStart + durA) bStart (bStart + durB)
          = false)
    ∧ (∀ (db : List Appointment) (pid : Nat) (b : Appointment),
        0 < b.duration_minutes →
        (b ∈ get_conflicts db pid aStart durA none ↔
          b ∈ db ∧ b.professional_id = pid ∧ b.is_deleted = false
            ∧ b.is_active = true
            ∧ overlapHalfOpen aStart (aStart + durA) b.appointment_date
                (b.appointment_date + b.duration_minutes) = true))
    ∧ (∀ (db : List Appointment) (fid : Nat) (b : Appointment),
        0 < b.duration_minutes →
        (b ∈ get_facility_conflicts db fid aStart durA none ↔
          b ∈ db ∧ b.facility_id = some fid ∧ b.is_deleted = false
            ∧ b.is_active = true
            ∧ overlapHalfOpen aStart (aStart + durA) b.appointment_date
                (b.appointment_date + b.duration_minutes) = true)) := by
  refine ⟨overlapsBranches_eq_halfOpen _ _ _ _ hA hB, ?_, ?_, ?_⟩
  · intro htouch
    rw [overlapsBranches_eq_halfOpen _ _ _ _ hA hB]
    simp only [overlapHalfOpen, Bool.and_eq_false_iff, decide_eq_false_iff_not]
    omega
  · intro db pid b hb
    rw [mem_get_conflicts_none,
      overlapsBranches_eq_halfOpen aStart durA b.appointment_date
        b.duration_minutes hA hb]
  · intro db fid b hb
    rw [mem_get_facility_conflicts_none,
      overlapsBranches_eq_halfOpen aStart durA b.appointment_date
        b.duration_minutes hA hb]

/-- C1 witness: the spec example, candidate `[10:00, 11:00)` against a
booking `[10:30, 10:45)` (conflict) and touching bookings `[09:00, 10:00)`
and `[11:00, 12:00)` (no conflict), in minutes after midnight. -/
theorem c1_witness :
    overlapsBranches 600 660 630 645 = overlapHalfOpen 600 660 630 645
    ∧ overlapsBranches 600 660 540 600 = false
    ∧ overlapsBranches 600 660 660 720 = false := by
  refine ⟨(c1_conflict_detector_half_open 600 60 630 15 (by decide)
    (by decide)).1, ?_, ?_⟩
  · exact (c1_conflict_detector_half_open 600 60 540 60 (by decide)
      (by decide)).2.1 (by decide)
  · exact (c1_conflict_detector_half_open 600 60 660 60 (by decide)
      (by decide)).2.1 (by decide)

/-- A degenerate observation used below: once the remaining window is
shorter than one duration, the loop stops immediately. -/
theorem slotLoopFuel_nil (fuel t e d : Nat) (h : e < t + d) :
    slotLoopFuel fuel t e d = [] := by
  cases fuel with
  | zero => rfl
  | succ n => rw [slotLoopFuel, if_neg (by omega)]

/-- Closed form of the slot loop, for any sufficient fuel. -/
theorem slotLoopFuel_closed :
    ∀ (fuel t e d : Nat), 0 < d → e + 1 - t ≤ fuel →
      slotLoopFuel fuel t e d
        = (List.range ((e - t) / d)).map
            fun k => (t + k * d, t + (k + 1) * d) := by
  intro fuel
  induction fuel with
  | zero =>
    intro t e d hd hle
    have h0 : e - t = 0 := by omega
    rw [slotLoopFuel, h0, Nat.zero_div]
    simp
  | succ n ih =>
    intro t e d hd hle
    by_cases h : t + d ≤ e
    · rw [slotLoopFuel, if_pos h, ih (t + d) e d hd (by omega)]
      have hq : (e - t) / d = (e - (t + d)) / d + 1 := by
        have h1 : e - t = (e - (t + d)) + d := by omega
        rw [h1, Nat.add_div_right _ hd]
      rw [hq, List.range_succ_eq_map]
      simp only [List.map_cons, List.map_map]
      refine List.cons_eq_cons.mpr ⟨by simp, ?_⟩
      apply List.map_congr_left
      intro k _
      simp only [Function.comp_apply, Prod.mk.injEq, Nat.succ_eq_add_one]
      constructor <;> ring
    · rw [slotLoopFuel, if_neg h]
      have h0 : (e - t) / d = 0 := Nat.div_eq_of_lt (by omega)
      rw [h0]
      simp

/-- C2: for a positive duration, the slot loop over window
`[window_start, window_end)` yields exactly the slots
`[start + k*d, start + (k+1)*d)` for `k = 0, 1, ...` in order, precisely
for those `k` with `start + (k+1)*d <= window_end`; any shorter trailing
remainder is discarded, and the result is empty when the duration exceeds
the window length. -/
theorem c2_slot_generation (window_start window_end d : Nat) (hd : 0 < d) :
    (slotLoop window_start window_end d
      = (List.range ((window_end - window_start) / d)).map
          fun k => (window_start + k * d, window_start + (k + 1) * d))
    ∧ (∀ p : Nat × Nat,
        p ∈ slotLoop window_start window_end d ↔
          ∃ k, p = (window_start + k * d, window_start + (k + 1) * d)
            ∧ window_start + (k + 1) * d ≤ window_end) := by
  have hclosed := slotLoopFuel_closed (window_end + 1 - window_start)
    window_start window_end d hd le_rfl
  refine ⟨hclosed, ?_⟩
  intro p
  rw [slotLoop, hclosed]
  simp only [List.mem_map, List.mem_range]
  constructor
  · rintro ⟨k, hk, rfl⟩
    refine ⟨k, rfl, ?_⟩
    have h1 : k + 1 ≤ (window_end - window_start) / d := hk
    have h2 : (k + 1) * d ≤ window_end - window_start :=
      (Nat.le_div_iff_mul_le hd).mp h1
    have h3 : 0 < (k + 1) * d := by positivity
    omega
  · rintro ⟨k, rfl, hk⟩
    refine ⟨k, ?_, rfl⟩
    have h3 : 0 < (k + 1) * d := by positivity
    have h2 : (k + 1) * d ≤ window_end - window_start := by omega
    have h1 : k + 1 ≤ (window_end - window_start) / d :=
      (Nat.le_div_iff_mul_le hd).mpr h2
    omega

/-- C2 witness: the spec examples, window `[09:00, 10:00)` in minutes:
duration 30 gives the two slots, duration 45 gives one slot and discards
the trailing 15 minutes. -/
theorem c2_witness :
    slotLoop 540 600 30 = [(540, 570), (570, 600)]
    ∧ slotLoop 540 600 45 = [(540, 585)] := by
  constructor
  · rw [(c2_slot_generation 540 600 30 (by decide)).1]; decide
  · rw [(c2_slot_generation 540 600 45 (by decide)).1]; decide

/-- C4: for distinct statuses the transition guard accepts exactly the
edges of the adjacency table of the spec; SCHEDULED to COMPLETED is
rejected, and every transition out of PENDING or FINISHED is rejected. -/
theorem c4_status_transition_table :
    (∀ c n : AppointmentStatus, c ≠ n →
      (validate_status_transition c n = .ok () ↔ (c, n) ∈ specBookingEdges))
    ∧ validate_status_transition .scheduled .completed
        = .error .invalidStatusTransition
    ∧ (∀ n, validate_status_transition .pending n
        = .error .invalidStatusTransition)
    ∧ (∀ n, validate_status_transition .finished n
        = .error .invalidStatusTransition) := by
  refine ⟨by decide, by decide, by decide, by decide⟩

/-- C4 witness: SCHEDULED to CONFIRMED is accepted (an edge of the table),
obtained through the equivalence. -/
theorem c4_witness :
    validate_status_transition .scheduled .confirmed = .ok () :=
  (c4_status_transition_table.1 .scheduled .confirmed (by decide)).mpr
    (by decide)

/-- C3 (amended): when a non-deleted exception record exists for the
date, an unavailable exception forces the unavailable outcome regardless
of the weekly record; an available exception overrides exactly the bounds
it sets, falling back to the weekly bounds, but only when the weekly
record for the weekday exists and is available, because the weekly gate
is checked first: with the weekly record absent or unavailable the
resolution is the unavailable outcome even when the exception says
available. -/
theorem c3_exception_precedence (db : List ProfessionalAvailability)
    (pid target : Nat) (ex : ProfessionalAvailability)
    (hex : findExceptionRecord db pid target = some ex) :
    (ex.is_available = false → resolveWindow db pid target = none)
    ∧ (∀ w, get_by_professional_and_day db pid (weekday target) = some w →
        w.is_available = true → ex.is_available = true →
        resolveWindow db pid target
          = some (ex.exception_start_time.getD w.start_time,
                  ex.exception_end_time.getD w.end_time))
    ∧ (get_by_professional_and_day db pid (weekday target) = none →
        resolveWindow db pid target = none)
    ∧ (∀ w, get_by_professional_and_day db pid (weekday target) = some w →
        w.is_available = false → resolveWindow db pid target = none) := by
  refine ⟨?_, ?_, ?_, ?_⟩
  · intro hna
    unfold resolveWindow
    cases hw : get_by_professional_and_day db pid (weekday target) with
    | none => rfl
    | some w =>
      by_cases hwa : w.is_available = false
      · simp [hwa]
      · simp [hwa, hex, hna]
  · intro w hw hwa hea
    unfold resolveWindow
    rw [hw]
    simp [hwa, hex, hea]
  · intro hw
    unfold resolveWindow
    rw [hw]
  · intro w hw hwa
    unfold resolveWindow
    rw [hw]
    simp [hwa]

/-- A weekly record for weekday 2 marked unavailable. -/
def c3weeklyOff : ProfessionalAvailability :=
  ⟨1, 7, 2, 540, 1020, false, none, none, none, true, false⟩

/-- An available exception record for day 16 (a weekday-2 day) with both
override bounds set. -/
def c3excOn : ProfessionalAvailability :=
  ⟨2, 7, 2, 540, 1020, true, some 16, some 600, some 720, true, false⟩

/-- C3 counterexample: an available exception (both bounds set, here
`[10:00, 12:00)`) for a date whose weekly record says unavailable.  The
claim predicts the effective window `(600, 720)`; the code resolves to
the unavailable outcome, because the weekly gate runs before the
exception is consulted. -/
theorem c3_counterexample :
    findExceptionRecord [c3weeklyOff, c3excOn] 7 16 = some c3excOn
    ∧ c3excOn.is_available = true
    ∧ c3excOn.exception_start_time = some 600
    ∧ c3excOn.exception_end_time = some 720
    ∧ resolveWindow [c3weeklyOff, c3excOn] 7 16 = none
    ∧ resolveWindow [c3weeklyOff, c3excOn] 7 16 ≠ some (600, 720) := by
  refine ⟨by decide, by decide, by decide, by decide, by decide, by decide⟩

/-- An available weekly record for weekday 2, `[09:00, 17:00)`. -/
def c3weeklyOn : ProfessionalAvailability :=
  ⟨1, 7, 2, 540, 1020, true, none, none, none, true, false⟩

/-- An available exception for day 16 that sets only the start bound. -/
def c3excPartial : ProfessionalAvailability :=
  ⟨2, 7, 2, 0, 0, true, some 16, some 615, none, true, false⟩

/-- C3 witness: with an available weekly record and an available partial
exception, the resolved window takes the exception start and falls back
to the weekly end. -/
theorem c3_witness :
    resolveWindow [c3weeklyOn, c3excPartial] 7 16 = some (615, 1020) := by
  have h := (c3_exception_precedence [c3weeklyOn, c3excPartial] 7 16
    c3excPartial (by decide)).2.1 c3weeklyOn (by decide) (by decide)
    (by decide)
  simpa using h

/-- C8 (amended): no resolution-time validation of the window ordering
exists.  When the resolved window has `start >= end`, `get_available_slots`
returns the empty slot list by normal return (it has no error channel at
all), and `_validate_professional_availability` never raises the
creation-time `ProfessionalAvailabilityInvalidTimeError` (the ValidationError
of the spec): its only error is `AppointmentOutsideAvailabilityError`. -/
theorem c8_degenerate_window_no_validation :
    (∀ (db : List ProfessionalAvailability) (pid target dur s e : Nat),
        0 < dur → resolveWindow db pid target = some (s, e) → e ≤ s →
        get_available_slots db pid target dur = [])
    ∧ (∀ (db : List ProfessionalAvailability) (pid t dur : Nat),
        validate_professional_availability db pid t dur
          ≠ .error .invalidTime) := by
  constructor
  · intro db pid target dur s e hd hres hle
    unfold get_available_slots
    rw [hres]
    unfold slotLoop
    exact slotLoopFuel_nil _ _ _ _ (by omega)
  · intro db pid t dur
    simp only [validate_professional_availability]
    split
    · simp
    · split <;> simp

/-- A weekly record whose window is reversed across midnight:
start 23:00, end 01:00, so `start >= end`. -/
def c8weeklyWrap : ProfessionalAvailability :=
  ⟨3, 9, 2, 1380, 60, true, none, none, none, true, false⟩

/-- C8 counterexample: for a resolved window with `start >= end`
(23:00 to 01:00) the code does not fail with a ValidationError:
resolution returns the window, `get_available_slots` returns an empty
list by normal return, and `_validate_professional_availability` even
accepts an appointment at 23:30 of that day because both `.time()` values
wrap modulo one day. -/
theorem c8_counterexample :
    resolveWindow [c8weeklyWrap] 9 16 = some (1380, 60)
    ∧ 60 ≤ 1380
    ∧ get_available_slots [c8weeklyWrap] 9 16 60 = []
    ∧ validate_professional_availability [c8weeklyWrap] 9
        (16 * 1440 + 1410) 60 = .ok () := by
  refine ⟨by decide, by decide, by decide, by decide⟩

/-- A weekly record with a reversed window entirely inside one day:
start 10:00, end 09:00. -/
def c8weeklyRev : ProfessionalAvailability :=
  ⟨4, 9, 2, 600, 540, true, none, none, none, true, false⟩

/-- C8 witness: the amended theorem applied at a reversed window and at a
concrete validation call, neither of which yields a ValidationError. -/
theorem c8_witness :
    get_available_slots [c8weeklyRev] 9 16 60 = []
    ∧ validate_professional_availability [c8weeklyRev] 9
        (16 * 1440 + 630) 60 ≠ .error .invalidTime := by
  constructor
  · exact c8_degenerate_window_no_validation.1 [c8weeklyRev] 9 16 60 600 540
      (by decide) (by decide) (by decide)
  · exact c8_degenerate_window_no_validation.2 [c8weeklyRev] 9
      (16 * 1440 + 630) 60

/-- The only exception the permission check can produce is the
`AttributeError` of the unreachable PATIENT branch. -/
theorem validate_appointment_permissions_error (users : List User)
    (current_user : AuthenticatedUser) (pid : Nat)
    (appointment : Option Appointment) (e : SchedErr)
    (h : validate_appointment_permissions users current_user pid appointment
          = .error e) :
    e = .attributeError := by
  unfold validate_appointment_permissions at h
  split at h
  · simp at h
  · split at h
    · simp at h
    · split at h
      · simp at h
      · simp only [Except.error.injEq] at h
        exact h.symm

/-- The only exception the status subcheck of `update_appointment` can
produce is `AppointmentInvalidStatusTransitionError`. -/
theorem updateStatusCheck_error (appointment : Appointment)
    (dto : AppointmentUpdateDTO) (e : SchedErr)
    (h : updateStatusCheck appointment dto = .error e) :
    e = .invalidStatusTransition := by
  unfold updateStatusCheck validate_status_transition at h
  split at h
  · split at h
    · split at h
      · simp at h
      · simp only [Except.error.injEq] at h
        exact h.symm
    · simp at h
  · simp at h

/-- The only exception the availability validation can produce is
`AppointmentOutsideAvailabilityError`. -/
theorem validate_professional_availability_error
    (db : List ProfessionalAvailability) (pid t dur : Nat) (e : SchedErr)
    (h : validate_professional_availability db pid t dur = .error e) :
    e = .outsideAvailability := by
  simp only [validate_professional_availability] at h
  split at h
  · simp only [Except.error.injEq] at h
    exact h.symm
  · split at h
    · simp only [Except.error.injEq] at h
      exact h.symm
    · simp at h

/-- C9: when the appointment exists and the caller passes the permission
check, a status update whose transition is not an allowed edge returns
`AppointmentInvalidStatusTransitionError` with the appointment table
unchanged: the transition is validated strictly before any mutation. -/
theorem c9_status_update_rejection_atomic (db : List Appointment)
    (users : List User) (appointment_id : Nat)
    (new_status : AppointmentStatus) (current_user : AuthenticatedUser)
    (appointment : Appointment)
    (hfind : appointment_get_by_id db appointment_id = some appointment)
    (hperm : validate_appointment_permissions users current_user
        appointment.professional_id (some appointment) = .ok ())
    (hbad : new_status ∉ valid_transitions appointment.status) :
    update_appointment_status db users appointment_id new_status
      current_user = (db, .error .invalidStatusTransition) := by
  simp [update_appointment_status, hfind, hperm,
    validate_status_transition, hbad]

/-- A scheduled appointment used for the C9 witness. -/
def c9appt : Appointment :=
  ⟨1, 600, 30, .scheduled, some 2, 5, none, none, true, false⟩

/-- An admin caller used for the C9 witness. -/
def c9admin : AuthenticatedUser := ⟨99, .admin, none⟩

/-- C9 witness: a direct SCHEDULED to COMPLETED status update is rejected
and the table is returned unchanged. -/
theorem c9_witness :
    update_appointment_status [c9appt] [] 1 .completed c9admin
      = ([c9appt], .error .invalidStatusTransition) :=
  c9_status_update_rejection_atomic [c9appt] [] 1 .completed c9admin c9appt
    (by decide) (by decide) (by decide)

/-- The two appointments of the C10 scenario: back to back bookings
`[10:00, 10:30)` and `[10:30, 11:00)` of the same professional. -/
def c10appt1 : Appointment :=
  ⟨1, 600, 30, .scheduled, some 2, 5, none, none, true, false⟩

def c10appt2 : Appointment :=
  ⟨2, 630, 30, .scheduled, some 3, 5, none, none, true, false⟩

/-- The C10 update: lengthen the duration to 120 minutes, no new date. -/
def c10dto : AppointmentUpdateDTO := ⟨none, some 120, none⟩

/-- An admin caller used for the C10 scenario. -/
def c10admin : AuthenticatedUser := ⟨99, .admin, none⟩

/-- C10: conflict detection in `update_appointment` runs iff the update
supplies a new `appointment_date`: without one the result is never
`AppointmentTimeConflictError` (first part), with one it is exactly the
conflict rejection when a conflicting booking exists (second part); in
particular the concrete duration-only update of booking `[10:00, 10:30)`
to 120 minutes succeeds even though the result overlaps the neighbouring
booking `[10:30, 11:00)` of the same professional (third part). -/
theorem c10_update_duration_skips_conflict_check :
    (∀ (db : List Appointment) (users : List User)
        (availabilities : List ProfessionalAvailability)
        (now appointment_id : Nat) (dto : AppointmentUpdateDTO)
        (current_user : AuthenticatedUser),
        dto.appointment_date = none →
        (update_appointment db users availabilities now appointment_id dto
          current_user).2 ≠ .error .timeConflict)
    ∧ (∀ (db : List Appointment) (users : List User)
        (availabilities : List ProfessionalAvailability)
        (now appointment_id : Nat) (dto : AppointmentUpdateDTO)
        (current_user : AuthenticatedUser) (appointment : Appointment)
        (new_date : Nat),
        appointment_get_by_id db appointment_id = some appointment →
        validate_appointment_permissions users current_user
          appointment.professional_id (some appointment) = .ok () →
        updateStatusCheck appointment dto = .ok () →
        dto.appointment_date = some new_date →
        now < new_date →
        get_conflicts db appointment.professional_id new_date
          (dto.duration_minutes.getD appointment.duration_minutes)
          (some appointment_id) ≠ [] →
        update_appointment db users availabilities now appointment_id dto
          current_user = (db, .error .timeConflict))
    ∧ (update_appointment [c10appt1, c10appt2] [] [] 0 1 c10dto c10admin
        = ([{ c10appt1 with duration_minutes := 120 }, c10appt2],
           .ok { c10appt1 with duration_minutes := 120 })
       ∧ overlapHalfOpen 600 720 630 660 = true
       ∧ get_conflicts [{ c10appt1 with duration_minutes := 120 }, c10appt2]
           5 600 120 (some 1) ≠ []) := by
  refine ⟨?_, ?_, by decide, by decide, by decide⟩
  · intro db users availabilities now appointment_id dto current_user hdate
    unfold update_appointment
    cases hfind : appointment_get_by_id db appointment_id with
    | none => simp
    | some appointment =>
      simp only []
      cases hperm : validate_appointment_permissions users current_user
          appointment.professional_id (some appointment) with
      | error e =>
        have he := validate_appointment_permissions_error _ _ _ _ _ hperm
        subst he
        simp
      | ok u =>
        simp only []
        cases hsc : updateStatusCheck appointment dto with
        | error e =>
          have he := updateStatusCheck_error _ _ _ hsc
          subst he
          simp
        | ok v =>
          simp only []
          rw [hdate]
          simp [commitUpdate]
  · intro db users availabilities now appointment_id dto current_user
      appointment new_date hfind hperm hsc hdate hnow hconf
    unfold update_appointment
    rw [hfind]
    simp only []
    rw [hperm]
    simp only []
    rw [hsc]
    simp only []
    rw [hdate]
    simp only []
    rw [if_neg (by omega : ¬ new_date ≤ now)]
    rw [if_pos hconf]

/-- C10 witness: the first part of the theorem applied to the concrete
duration-only update, which therefore cannot be a conflict rejection. -/
theorem c10_witness :
    (update_appointment [c10appt1, c10appt2] [] [] 0 1 c10dto c10admin).2
      ≠ .error .timeConflict :=
  c10_update_duration_skips_conflict_check.1 [c10appt1, c10appt2] [] [] 0 1
    c10dto c10admin (by decide)

/-- C7: generation rejects with the ValueError exactly when the requested
range starts before the reservation validity start, or the validity end is
set and the requested range ends after it; the rejection happens before
the date loop, so the appointment table is returned unchanged. -/
theorem c7_generation_range_validation (db : List Appointment)
    (res : RecurringReservation) (g : RecurringReservationGenerationDTO) :
    ((g.start_date < res.start_date
        ∨ ∃ ve, res.end_date = some ve ∧ ve < g.end_date) →
      generate_appointments_from_reservation db res g
        = (db, .error .valueError))
    ∧ (∀ e, (generate_appointments_from_reservation db res g).2 = .error e →
        g.start_date < res.start_date
          ∨ ∃ ve, res.end_date = some ve ∧ ve < g.end_date) := by
  constructor
  · intro h
    rcases h with h1 | ⟨ve, hve, hlt⟩
    · simp [generate_appointments_from_reservation, h1]
    · by_cases h1 : g.start_date < res.start_date
      · simp [generate_appointments_from_reservation, h1]
      · simp [generate_appointments_from_reservation, h1, hve, hlt]
  · intro e he
    unfold generate_appointments_from_reservation at he
    by_cases h1 : g.start_date < res.start_date
    · exact Or.inl h1
    · rw [if_neg h1] at he
      by_cases h2 : (match res.end_date with
                     | some v => decide (v < g.end_date)
                     | none => false) = true
      · refine Or.inr ?_
        cases hve : res.end_date with
        | none => rw [hve] at h2; simp at h2
        | some ve =>
          rw [hve] at h2
          simp only [decide_eq_true_eq] at h2
          exact ⟨ve, rfl, h2⟩
      · rw [if_neg h2] at he
        simp at he

/-- A reservation whose validity starts at day 10, for the C7 witness. -/
def c7res : RecurringReservation :=
  ⟨1, 2, 840, 900, 60, 10, none, 5, 3, none, true, false⟩

/-- A generation request starting before the validity start. -/
def c7g : RecurringReservationGenerationDTO := ⟨5, 8, true⟩

/-- C7 witness: the too-early range is rejected with the ValueError and
the (empty) appointment table is unchanged. -/
theorem c7_witness :
    generate_appointments_from_reservation [] c7res c7g
      = ([], .error .valueError) :=
  (c7_generation_range_validation [] c7res c7g).1 (Or.inl (by decide))

/-- `get_facility_conflicts` without an exclusion id is a plain filter. -/
theorem get_facility_conflicts_none_eq (db : List Appointment)
    (fid t dur : Nat) :
    get_facility_conflicts db fid t dur none
      = db.filter fun a =>
          decide (a.facility_id = some fid) && !a.is_deleted && a.is_active
            && overlapsBranches t (t + dur) a.appointment_date
                (a.appointment_date + a.duration_minutes) := by
  simp [get_facility_conflicts, truthyNat]

/-- The facility-conflict query distributes over table concatenation. -/
theorem get_facility_conflicts_append (xs ys : List Appointment)
    (fid t dur : Nat) :
    get_facility_conflicts (xs ++ ys) fid t dur none
      = get_facility_conflicts xs fid t dur none
        ++ get_facility_conflicts ys fid t dur none := by
  simp [get_facility_conflicts_none_eq, List.filter_append]

/-- Proof-side description of the rows the generation loop materialises
before day `bound`: each one sits at an earlier matching date of the same
reservation, with its duration. -/
def createdByRes (reservation : RecurringReservation) (bound : Nat)
    (b : Appointment) : Prop :=
  ∃ d, d < bound ∧ d % 7 = reservation.day_of_week
    ∧ b.appointment_date = d * 1440 + reservation.start_time
    ∧ b.duration_minutes = reservation.duration_minutes

theorem createdByRes_mono (reservation : RecurringReservation)
    {bound bound2 : Nat} {b : Appointment} (h : bound ≤ bound2)
    (hc : createdByRes reservation bound b) :
    createdByRes reservation bound2 b := by
  obtain ⟨d, h1, h2, h3, h4⟩ := hc
  exact ⟨d, by omega, h2, h3, h4⟩

/-- Rows materialised at earlier matching dates never conflict with a
later matching date of the same reservation: matching dates are at least
seven days apart and the duration is at most a week, so the three-branch
test fails on every such row. -/
theorem created_no_conflict (reservation : RecurringReservation)
    (hdur : reservation.duration_minutes ≤ 10080)
    (extra : List Appointment) (bound d : Nat)
    (hextra : ∀ b ∈ extra, createdByRes reservation bound b)
    (hge : bound ≤ d) (hdow : d % 7 = reservation.day_of_week) :
    get_facility_conflicts extra reservation.facility_id
      (d * 1440 + reservation.start_time) reservation.duration_minutes none
      = [] := by
  rw [get_facility_conflicts_none_eq]
  rw [List.filter_eq_nil_iff]
  intro b hb
  obtain ⟨d0, hd0, hdow0, hdate0, hdur0⟩ := hextra b hb
  intro hp
  simp only [Bool.and_eq_true, decide_eq_true_eq] at hp
  have hov := hp.2
  rw [hdate0, hdur0] at hov
  simp only [overlapsBranches, Bool.or_eq_true, Bool.and_eq_true,
    decide_eq_true_eq] at hov
  omega

/-- The candidate dates of the `n` days starting at `lo` that match the
weekday and are conflict-free against the table `db0`. -/
def freshDates (db0 : List Appointment)
    (reservation : RecurringReservation) (lo n : Nat) : List Nat :=
  (List.range' lo n).filter fun d =>
    decide (d % 7 = reservation.day_of_week)
      && (get_facility_conflicts db0 reservation.facility_id
            (d * 1440 + reservation.start_time)
            reservation.duration_minutes none).isEmpty

/-- The candidate dates of the `n` days starting at `lo` that match the
weekday and hit a conflict in `db0`. -/
def clashDates (db0 : List Appointment)
    (reservation : RecurringReservation) (lo n : Nat) : List Nat :=
  (List.range' lo n).filter fun d =>
    decide (d % 7 = reservation.day_of_week)
      && !(get_facility_conflicts db0 reservation.facility_id
            (d * 1440 + reservation.start_time)
            reservation.duration_minutes none).isEmpty

/-- Closed form of the generation loop: provided the extra rows on top of
`db0` are materialised candidates of earlier dates and the duration is at
most a week, the loop appends to the report exactly the weekday-matching
dates in order, split by conflict against `db0` alone, and appends the
materialised rows for the fresh ones when `create` is set. -/
theorem generateLoop_closed (reservation : RecurringReservation)
    (create : Bool) (db0 : List Appointment)
    (hdur : reservation.duration_minutes ≤ 10080) :
    ∀ (n cur : Nat) (extra : List Appointment)
      (gacc : List GeneratedAppointmentDTO) (cacc : List Nat),
      (∀ b ∈ extra, createdByRes reservation cur b) →
      generateLoop reservation create n cur ⟨db0 ++ extra, gacc, cacc⟩
        = ⟨db0 ++ extra
             ++ (if create then
                  (freshDates db0 reservation cur n).map
                    (fun d => mkGeneratedAppointment reservation
                      (d * 1440 + reservation.start_time))
                 else []),
           gacc ++ (freshDates db0 reservation cur n).map
             (fun d => ⟨d * 1440 + reservation.start_time,
               reservation.professional_id, reservation.facility_id,
               reservation.duration_minutes⟩),
           cacc ++ (clashDates db0 reservation cur n).map
             (fun d => d * 1440 + reservation.start_time)⟩ := by
  intro n
  induction n with
  | zero =>
    intro cur extra gacc cacc hextra
    cases create <;> simp [generateLoop, freshDates, clashDates]
  | succ n ih =>
    intro cur extra gacc cacc hextra
    rw [generateLoop]
    have hr : List.range' cur (n + 1) = cur :: List.range' (cur + 1) n :=
      List.range'_succ cur n 1 ▸ rfl
    by_cases hdow : cur % 7 = reservation.day_of_week
    · have hsplit := get_facility_conflicts_append db0 extra
        reservation.facility_id (cur * 1440 + reservation.start_time)
        reservation.duration_minutes
      have hextra0 : get_facility_conflicts extra reservation.facility_id
          (cur * 1440 + reservation.start_time)
          reservation.duration_minutes none = [] :=
        created_no_conflict reservation hdur extra cur cur hextra le_rfl hdow
      by_cases hc : (get_facility_conflicts db0 reservation.facility_id
          (cur * 1440 + reservation.start_time)
          reservation.duration_minutes none).isEmpty
      · have hstep : generationStep reservation create cur
            ⟨db0 ++ extra, gacc, cacc⟩
            = ⟨db0 ++ (extra ++ (if create then
                  [mkGeneratedAppointment reservation
                    (cur * 1440 + reservation.start_time)] else [])),
               gacc ++ [⟨cur * 1440 + reservation.start_time,
                 reservation.professional_id, reservation.facility_id,
                 reservation.duration_minutes⟩],
               cacc⟩ := by
          unfold generationStep
          rw [if_pos hdow]
          simp only []
          rw [hsplit, hextra0, List.append_nil, if_pos hc]
          cases create <;> simp
        rw [hstep]
        have hextra2 : ∀ b ∈ extra ++ (if create then
            [mkGeneratedAppointment reservation
              (cur * 1440 + reservation.start_time)] else []),
            createdByRes reservation (cur + 1) b := by
          intro b hb
          rcases List.mem_append.mp hb with hb1 | hb2
          · exact createdByRes_mono reservation (by omega) (hextra b hb1)
          · cases create
            · simp at hb2
            · simp at hb2
              subst hb2
              exact ⟨cur, by omega, hdow, rfl, rfl⟩
        rw [ih (cur + 1) _ _ _ hextra2]
        simp only [freshDates, clashDates, hr, List.filter_cons, hdow]
        cases create <;>
          simp [hc, List.append_assoc, List.map_cons]
      · have hstep : generationStep reservation create cur
            ⟨db0 ++ extra, gacc, cacc⟩
            = ⟨db0 ++ extra, gacc,
               cacc ++ [cur * 1440 + reservation.start_time]⟩ := by
          unfold generationStep
          rw [if_pos hdow]
          simp only []
          rw [hsplit, hextra0, List.append_nil, if_neg hc]
        rw [hstep]
        have hextra2 : ∀ b ∈ extra, createdByRes reservation (cur + 1) b :=
          fun b hb => createdByRes_mono reservation (by omega) (hextra b hb)
        rw [ih (cur + 1) _ _ _ hextra2]
        simp only [freshDates, clashDates, hr, List.filter_cons, hdow]
        simp [hc, List.append_assoc]
    · have hstep : generationStep reservation create cur
          ⟨db0 ++ extra, gacc, cacc⟩ = ⟨db0 ++ extra, gacc, cacc⟩ := by
        unfold generationStep
        rw [if_neg hdow]
      rw [hstep]
      have hextra2 : ∀ b ∈ extra, createdByRes reservation (cur + 1) b :=
        fun b hb => createdByRes_mono reservation (by omega) (hextra b hb)
      rw [ih (cur + 1) _ _ _ hextra2]
      simp only [freshDates, clashDates, hr, List.filter_cons, hdow]
      simp [hdow]

/-- C5: under the range precondition and a duration of at most a week
(the DTO bounds it by 480), expansion visits the dates of
`[rangeStart, rangeEnd]` in ascending order and reports exactly the
weekday-matching ones: the conflict-free candidates (against the
pre-existing table) make up the generated list, and are materialised as
SCHEDULED bookings exactly when requested, while the conflicting ones
each contribute a conflict note and never abort the remaining dates; the
full report is returned, and every weekday-matching date of the range
appears in exactly one of the two parts. -/
theorem c5_expansion_report (db : List Appointment)
    (res : RecurringReservation) (g : RecurringReservationGenerationDTO)
    (hdur : res.duration_minutes ≤ 10080)
    (h1 : ¬ g.start_date < res.start_date)
    (h2 : ∀ ve, res.end_date = some ve → g.end_date ≤ ve) :
    (generate_appointments_from_reservation db res g
      = (db ++ (if g.create_appointments then
            (freshDates db res g.start_date
              (g.end_date + 1 - g.start_date)).map
              (fun d => mkGeneratedAppointment res
                (d * 1440 + res.start_time)) else []),
         .ok { reservation_id := res.id
               generated_appointments := (freshDates db res g.start_date
                 (g.end_date + 1 - g.start_date)).map
                 (fun d => ⟨d * 1440 + res.start_time, res.professional_id,
                   res.facility_id, res.duration_minutes⟩)
               total_generated := (freshDates db res g.start_date
                 (g.end_date + 1 - g.start_date)).length
               conflicts := (clashDates db res g.start_date
                 (g.end_date + 1 - g.start_date)).map
                 (fun d => d * 1440 + res.start_time) }))
    ∧ (∀ d, d ∈ candidateDates res.day_of_week g.start_date g.end_date ↔
        d ∈ freshDates db res g.start_date (g.end_date + 1 - g.start_date)
          ∨ d ∈ clashDates db res g.start_date
              (g.end_date + 1 - g.start_date)) := by
  constructor
  · have hend : (match res.end_date with
                 | some e => decide (e < g.end_date)
                 | none => false) ≠ true := by
      cases hve : res.end_date with
      | none => simp
      | some ve =>
        have := h2 ve hve
        show decide (ve < g.end_date) ≠ true
        simp only [ne_eq, decide_eq_true_eq]
        omega
    unfold generate_appointments_from_reservation
    rw [if_neg h1, if_neg hend]
    have hloop := generateLoop_closed res g.create_appointments db hdur
      (g.end_date + 1 - g.start_date) g.start_date [] [] []
      (by intro b hb; simp at hb)
    rw [List.append_nil] at hloop
    simp only []
    rw [hloop]
    simp
  · intro d
    simp only [candidateDates, freshDates, clashDates, List.mem_filter,
      Bool.and_eq_true, decide_eq_true_eq, Bool.not_eq_true']
    by_cases hB : (get_facility_conflicts db res.facility_id
        (d * 1440 + res.start_time) res.duration_minutes none).isEmpty
    · simp [hB]
    · simp only [Bool.not_eq_true] at hB
      simp [hB]

/-- A reservation for weekday 2 at 14:00, 60 minutes, valid from day 0. -/
def c5res : RecurringReservation :=
  ⟨1, 2, 840, 900, 60, 0, none, 5, 3, none, true, false⟩

/-- A pre-existing active booking occupying the day-9 candidate slot of
facility 3. -/
def c5existing : Appointment :=
  ⟨7, 13800, 60, .scheduled, some 2, 5, some 3, none, true, false⟩

/-- A materialising generation request over days 0 to 13. -/
def c5g : RecurringReservationGenerationDTO := ⟨0, 13, true⟩

/-- C5 witness: over days 0..13 the weekday-2 candidates are day 2
(conflict-free, materialised as a SCHEDULED booking at minute 3720) and
day 9 (occupied by the existing booking, reported as a conflict note at
minute 13800); the loop continues past the conflict and returns the full
report. -/
theorem c5_witness :
    generate_appointments_from_reservation [c5existing] c5res c5g
      = ([c5existing,
          ⟨0, 3720, 60, .scheduled, none, 5, some 3, none, true, false⟩],
         .ok { reservation_id := 1
               generated_appointments := [⟨3720, 5, 3, 60⟩]
               total_generated := 1
               conflicts := [13800] }) := by
  rw [(c5_expansion_report [c5existing] c5res c5g (by decide) (by decide)
    (fun ve h => Option.noConfusion h)).1]
  decide

/-- The generation loop only ever appends rows to the table. -/
theorem generateLoop_db_mono (reservation : RecurringReservation)
    (create : Bool) :
    ∀ (n cur : Nat) (st : GenLoopState),
      ∃ ys, (generateLoop reservation create n cur st).db = st.db ++ ys := by
  intro n
  induction n with
  | zero => intro cur st; exact ⟨[], by simp [generateLoop]⟩
  | succ n ih =>
    intro cur st
    rw [generateLoop]
    obtain ⟨ys, hys⟩ := ih (cur + 1) (generationStep reservation create cur st)
    have hstep : ∃ zs,
        (generationStep reservation create cur st).db = st.db ++ zs := by
      unfold generationStep
      by_cases hdow : cur % 7 = reservation.day_of_week
      · rw [if_pos hdow]
        simp only []
        by_cases hc : (get_facility_conflicts st.db reservation.facility_id
            (cur * 1440 + reservation.start_time)
            reservation.duration_minutes none).isEmpty
        · rw [if_pos hc]
          cases create
          · exact ⟨[], by simp⟩
          · exact ⟨[mkGeneratedAppointment reservation
              (cur * 1440 + reservation.start_time)], by simp⟩
        · rw [if_neg hc]
          exact ⟨[], by simp⟩
      · rw [if_neg hdow]
        exact ⟨[], by simp⟩
    obtain ⟨zs, hzs⟩ := hstep
    exact ⟨zs ++ ys, by rw [hys, hzs, List.append_assoc]⟩

/-- A nonempty conflict set stays nonempty when rows are appended. -/
theorem get_facility_conflicts_ne_nil_mono (xs ys : List Appointment)
    (fid t dur : Nat)
    (h : get_facility_conflicts xs fid t dur none ≠ []) :
    get_facility_conflicts (xs ++ ys) fid t dur none ≠ [] := by
  rw [get_facility_conflicts_append]
  intro hcontra
  exact h (List.append_eq_nil.mp hcontra).1

/-- A freshly materialised row conflicts with its own candidate interval:
identical intervals always pass the contains branch of the test. -/
theorem mk_self_conflict (reservation : RecurringReservation) (t : Nat)
    (db : List Appointment) :
    get_facility_conflicts
      (db ++ [mkGeneratedAppointment reservation t])
      reservation.facility_id t reservation.duration_minutes none ≠ [] := by
  rw [get_facility_conflicts_append]
  intro h
  have h2 := (List.append_eq_nil.mp h).2
  rw [get_facility_conflicts_none_eq, List.filter_eq_nil_iff] at h2
  refine h2 (mkGeneratedAppointment reservation t) (by simp) ?_
  simp [mkGeneratedAppointment, overlapsBranches]

/-- After a materialising run, every weekday-matching date of the
processed window has a conflict in the resulting table: either the run
materialised that candidate (which then conflicts with itself) or it
already hit a conflict there, and rows are never removed. -/
theorem generateLoop_covers (reservation : RecurringReservation) :
    ∀ (n cur : Nat) (st : GenLoopState) (d : Nat),
      cur ≤ d → d < cur + n → d % 7 = reservation.day_of_week →
      get_facility_conflicts
        (generateLoop reservation true n cur st).db reservation.facility_id
        (d * 1440 + reservation.start_time)
        reservation.duration_minutes none ≠ [] := by
  intro n
  induction n with
  | zero => intro cur st d h1 h2 _; omega
  | succ n ih =>
    intro cur st d h1 h2 hdow
    rw [generateLoop]
    rcases Nat.lt_or_ge cur d with hlt | hge
    · exact ih (cur + 1) _ d (by omega) (by omega) hdow
    · have heq : cur = d := by omega
      subst heq
      obtain ⟨ys, hys⟩ := generateLoop_db_mono reservation true n (cur + 1)
        (generationStep reservation true cur st)
      rw [hys]
      apply get_facility_conflicts_ne_nil_mono
      unfold generationStep
      rw [if_pos hdow]
      simp only []
      by_cases hc : (get_facility_conflicts st.db reservation.facility_id
          (cur * 1440 + reservation.start_time)
          reservation.duration_minutes none).isEmpty
      · rw [if_pos hc]
        exact mk_self_conflict reservation _ st.db
      · rw [if_neg hc]
        intro hcontra
        rw [hcontra] at hc
        simp at hc

/-- If every remaining candidate date already conflicts in the current
table, the loop only appends conflict notes: table and generated list are
unchanged. -/
theorem generateLoop_stuck (reservation : RecurringReservation)
    (create : Bool) :
    ∀ (n cur : Nat) (st : GenLoopState),
      (∀ d, cur ≤ d → d < cur + n → d % 7 = reservation.day_of_week →
        get_facility_conflicts st.db reservation.facility_id
          (d * 1440 + reservation.start_time)
          reservation.duration_minutes none ≠ []) →
      (generateLoop reservation create n cur st).db = st.db
      ∧ (generateLoop reservation create n cur st).generated
          = st.generated := by
  intro n
  induction n with
  | zero =>
    intro cur st h
    exact ⟨by simp [generateLoop], by simp [generateLoop]⟩
  | succ n ih =>
    intro cur st h
    rw [generateLoop]
    by_cases hdow : cur % 7 = reservation.day_of_week
    · have hc : ¬ (get_facility_conflicts st.db reservation.facility_id
          (cur * 1440 + reservation.start_time)
          reservation.duration_minutes none).isEmpty := by
        intro hc
        exact h cur le_rfl (by omega) hdow (by simpa using hc)
      have hstep : generationStep reservation create cur st
          = { st with conflicts := st.conflicts
                ++ [cur * 1440 + reservation.start_time] } := by
        unfold generationStep
        rw [if_pos hdow]
        simp only []
        rw [if_neg hc]
      rw [hstep]
      exact ih (cur + 1) _
        (fun d hd1 hd2 hdw => h d (by omega) (by omega) hdw)
    · have hstep : generationStep reservation create cur st = st := by
        unfold generationStep
        rw [if_neg hdow]
      rw [hstep]
      exact ih (cur + 1) _
        (fun d hd1 hd2 hdw => h d (by omega) (by omega) hdw)

/-- The number of rows of the table sitting at a given instant. -/
def countAt (db : List Appointment) (t : Nat) : Nat :=
  (db.filter fun b => decide (b.appointment_date = t)).length

/-- The loop never adds a row at an instant that already conflicts in the
current table: that candidate is skipped when reached, and rows created
for other dates sit at other instants. -/
theorem generateLoop_no_new_at (reservation : RecurringReservation)
    (create : Bool) :
    ∀ (n cur : Nat) (st : GenLoopState) (t : Nat),
      get_facility_conflicts st.db reservation.facility_id t
        reservation.duration_minutes none ≠ [] →
      countAt (generateLoop reservation create n cur st).db t
        = countAt st.db t := by
  intro n
  induction n with
  | zero => intro cur st t h; simp [generateLoop]
  | succ n ih =>
    intro cur st t h
    rw [generateLoop]
    by_cases hdow : cur % 7 = reservation.day_of_week
    · by_cases hc : (get_facility_conflicts st.db reservation.facility_id
          (cur * 1440 + reservation.start_time)
          reservation.duration_minutes none).isEmpty
      · have hne : cur * 1440 + reservation.start_time ≠ t := by
          intro hEq
          rw [hEq] at hc
          exact h (by simpa using hc)
        have hstep : generationStep reservation create cur st
            = ⟨if create then st.db ++ [mkGeneratedAppointment reservation
                  (cur * 1440 + reservation.start_time)] else st.db,
               st.generated ++ [⟨cur * 1440 + reservation.start_time,
                 reservation.professional_id, reservation.facility_id,
                 reservation.duration_minutes⟩],
               st.conflicts⟩ := by
          unfold generationStep
          rw [if_pos hdow]
          simp only []
          rw [if_pos hc]
        rw [hstep]
        have hconf2 : get_facility_conflicts
            (if create then st.db ++ [mkGeneratedAppointment reservation
              (cur * 1440 + reservation.start_time)] else st.db)
            reservation.facility_id t reservation.duration_minutes none
            ≠ [] := by
          cases create
          · simpa using h
          · simp only [if_true]
            exact get_facility_conflicts_ne_nil_mono _ _ _ _ _ h
        rw [ih (cur + 1) _ t hconf2]
        cases create
        · simp
        · simp only [if_true, countAt, List.filter_append]
          simp [mkGeneratedAppointment, hne]
      · have hstep : generationStep reservation create cur st
            = { st with conflicts := st.conflicts
                  ++ [cur * 1440 + reservation.start_time] } := by
          unfold generationStep
          rw [if_pos hdow]
          simp only []
          rw [if_neg hc]
        rw [hstep]
        exact ih (cur + 1) _ t h
    · have hstep : generationStep reservation create cur st = st := by
        unfold generationStep
        rw [if_neg hdow]
      rw [hstep]
      exact ih (cur + 1) _ t h

/-- C6 (amended): the expansion performs no dedup keyed on
(template_id, date), yet repeated materialising expansion does not
duplicate bookings.  A second run over the same range leaves the
appointment table unchanged and generates nothing (every candidate is now
a conflict, because the rows materialised by the first run conflict with
their own interval and old conflicts persist), and for any further run
over any range, no row is added at any candidate instant already
processed by the first run. -/
theorem c6_expansion_idempotent (db : List Appointment)
    (res : RecurringReservation) (g : RecurringReservationGenerationDTO)
    (hcreate : g.create_appointments = true)
    (h1 : ¬ g.start_date < res.start_date)
    (h2 : ∀ ve, res.end_date = some ve → g.end_date ≤ ve) :
    ((generate_appointments_from_reservation
        (generate_appointments_from_reservation db res g).1 res g).1
      = (generate_appointments_from_reservation db res g).1)
    ∧ (∀ resp2, (generate_appointments_from_reservation
        (generate_appointments_from_reservation db res g).1 res g).2
          = .ok resp2 → resp2.generated_appointments = [])
    ∧ (∀ (g2 : RecurringReservationGenerationDTO) (d : Nat),
        g.start_date ≤ d → d ≤ g.end_date → d % 7 = res.day_of_week →
        countAt (generate_appointments_from_reservation
          (generate_appointments_from_reservation db res g).1 res g2).1
          (d * 1440 + res.start_time)
        = countAt (generate_appointments_from_reservation db res g).1
            (d * 1440 + res.start_time)) := by
  have hend : (match res.end_date with
               | some e => decide (e < g.end_date)
               | none => false) ≠ true := by
    cases hve : res.end_date with
    | none => simp
    | some ve =>
      have := h2 ve hve
      show decide (ve < g.end_date) ≠ true
      simp only [ne_eq, decide_eq_true_eq]
      omega
  have hrun : ∀ db', generate_appointments_from_reservation db' res g
      = ((generateLoop res true (g.end_date + 1 - g.start_date)
            g.start_date ⟨db', [], []⟩).db,
         .ok ⟨res.id,
           (generateLoop res true (g.end_date + 1 - g.start_date)
             g.start_date ⟨db', [], []⟩).generated,
           (generateLoop res true (g.end_date + 1 - g.start_date)
             g.start_date ⟨db', [], []⟩).generated.length,
           (generateLoop res true (g.end_date + 1 - g.start_date)
             g.start_date ⟨db', [], []⟩).conflicts⟩) := by
    intro db'
    unfold generate_appointments_from_reservation
    rw [if_neg h1, if_neg hend, hcreate]
  have hcov : ∀ d, g.start_date ≤ d → d ≤ g.end_date →
      d % 7 = res.day_of_week →
      get_facility_conflicts
        (generateLoop res true (g.end_date + 1 - g.start_date)
          g.start_date ⟨db, [], []⟩).db
        res.facility_id (d * 1440 + res.start_time)
        res.duration_minutes none ≠ [] := by
    intro d hd1 hd2 hdw
    exact generateLoop_covers res (g.end_date + 1 - g.start_date)
      g.start_date ⟨db, [], []⟩ d hd1 (by omega) hdw
  refine ⟨?_, ?_, ?_⟩
  · rw [hrun db, hrun _]
    exact (generateLoop_stuck res true (g.end_date + 1 - g.start_date)
      g.start_date ⟨_, [], []⟩
      (fun d hd1 hd2 hdw => hcov d hd1 (by omega) hdw)).1
  · intro resp2 hresp
    rw [hrun db, hrun _] at hresp
    simp only [Except.ok.injEq] at hresp
    subst hresp
    exact (generateLoop_stuck res true (g.end_date + 1 - g.start_date)
      g.start_date ⟨_, [], []⟩
      (fun d hd1 hd2 hdw => hcov d hd1 (by omega) hdw)).2
  · intro g2 d hd1 hd2 hdw
    rw [hrun db]
    unfold generate_appointments_from_reservation
    by_cases hrej1 : g2.start_date < res.start_date
    · rw [if_pos hrej1]
    · rw [if_neg hrej1]
      by_cases hrej2 : (match res.end_date with
          | some e => decide (e < g2.end_date)
          | none => false) = true
      · rw [if_pos hrej2]
      · rw [if_neg hrej2]
        simp only []
        exact generateLoop_no_new_at res g2.create_appointments
          (g2.end_date + 1 - g2.start_date) g2.start_date ⟨_, [], []⟩
          (d * 1440 + res.start_time) (hcov d hd1 hd2 hdw)

/-- A reservation for weekday 2 at 14:00, valid days 0 to 100, facility
3, used for the C6 concrete instance. -/
def c6res : RecurringReservation :=
  ⟨1, 2, 840, 900, 60, 0, some 100, 5, 3, none, true, false⟩

/-- A materialising generation request over days 14 to 20 (one matching
date, day 16). -/
def c6g : RecurringReservationGenerationDTO := ⟨14, 20, true⟩

/-- C6 counterexample: the concrete same-range double expansion.  The
first run materialises the single day-16 candidate; the second run over
the same range materialises nothing (the table is unchanged, so no
duplicate row exists) and reports the candidate as a conflict instead,
contradicting the claimed duplicate bookings. -/
theorem c6_counterexample :
    (generate_appointments_from_reservation [] c6res c6g).1
      = [⟨0, 23880, 60, .scheduled, none, 5, some 3, none, true, false⟩]
    ∧ (generate_appointments_from_reservation
        (generate_appointments_from_reservation [] c6res c6g).1 c6res
          c6g).1
      = (generate_appointments_from_reservation [] c6res c6g).1
    ∧ (generate_appointments_from_reservation
        (generate_appointments_from_reservation [] c6res c6g).1 c6res
          c6g).2
      = .ok ⟨1, [], 0, [23880]⟩ := by
  refine ⟨by decide, by decide, by decide⟩

/-- C6 witness: the amended theorem applied to the concrete instance. -/
theorem c6_witness :
    (generate_appointments_from_reservation
      (generate_appointments_from_reservation [] c6res c6g).1 c6res c6g).1
      = (generate_appointments_from_reservation [] c6res c6g).1 :=
  (c6_expansion_idempotent [] c6res c6g (by decide) (by decide)
    (by intro ve h; simp [c6res] at h; subst h; decide)).1
